import Mathlib

/-!
Verification of the go-mirgrate-directus schema-migration client.

The Go source (package gomirgratedirectus) has one data type, `DirectusClient`,
three client operations — `GetSnapshot`, `GetDiff`, `ApplyDiff` — and one
orchestrator, `Migrate`.  We embed them as pure Lean functions.

Modelling decisions, each tied to a line of the source:

* JSON documents (Go `map[string]any` values decoded by `encoding/json`) become
  the inductive `Json`; a decoded top-level object (`map[string]any`) is
  `Obj := List (String × Json)`, an association list standing for the Go map.

* The external `net/http` layer is a parameter `Env`:
  - `Env.newReqErr url` models `http.NewRequest` (source lines 31, 71, 109):
    `none` means the request was constructed, `some e` the construction error
    (Go: malformed URL, e.g. a control character; spec section 7 lists
    "request construction ... failed (e.g., malformed URL)" as a failure kind).
  - `Env.send req` models `c.HTTPClient.Do(req)` (lines 36, 77, 115): either a
    network error or an `HttpResponse`.

* An `HttpResponse` carries the status code, the raw body as read by
  `io.ReadAll` on the failure branches (lines 43, 84, 122), and the outcome of
  `json.NewDecoder(resp.Body).Decode(&result)` into `map[string]any`
  (lines 48, 89): `Except String Obj`, `.error e` being the decoder error
  (which in Go also covers bodies whose top level is not a JSON object).
  The Go code never reads the raw body and decodes it in the same run, so the
  two fields never interact.

* `json.Marshal` of a `map[string]any` holding only JSON-representable values
  (everything of type `Json`) never fails in Go, so the marshal-error branches
  (lines 67, 105) are unreachable in the model and the request carries the
  document itself: `Request.body : Option Json`.

* Each operation returns `DResult α × DirectusClient × List Request`: its Go
  return value, the receiver after the call (the Go methods never assign to
  receiver fields, so it is returned unchanged), and the trace of HTTP
  round-trips performed (the calls to `HTTPClient.Do`), in order.

* `DResult.crash` models a Go runtime panic: the unchecked type assertion
  `data.(map[string]any)` on source lines 53 and 94 panics when `data` is
  present but not an object.
-/

namespace Directus

/-- An untyped JSON value, the model of Go `any` holding a decoded document. -/
inductive Json where
  | null
  | bool (b : Bool)
  | num (n : Int)
  | str (s : String)
  | arr (elems : List Json)
  | obj (fields : List (String × Json))

/-- A decoded top-level JSON object: the model of Go `map[string]any`. -/
abbrev Obj := List (String × Json)

/-- An HTTP response as delivered by the transport.  `rawBody` is what
`io.ReadAll(resp.Body)` yields on the non-success branches; `decoded` is the
outcome of `json.NewDecoder(resp.Body).Decode(&result)` into `map[string]any`
on the success branches. -/
structure HttpResponse where
  status : Nat
  rawBody : String
  decoded : Except String Obj

/-- An HTTP request as built by the operations: method, URL, optional JSON
body (the document passed to `json.Marshal`), optional Content-Type header. -/
structure Request where
  method : String
  url : String
  body : Option Json
  contentType : Option String

/-- Outcome of `HTTPClient.Do`: a response, or a network error. -/
inductive DoResult where
  | ok (resp : HttpResponse)
  | netErr (msg : String)

/-- The external `net/http` environment: request construction
(`http.NewRequest`, failing on malformed URLs) and request execution
(`HTTPClient.Do`). -/
structure Env where
  newReqErr : String → Option String
  send : Request → DoResult

/-- The client record `DirectusClient` (source lines 13-17).  The `HTTPClient` field is the
transport handle, modelled by `Env`. -/
structure DirectusClient where
  URL : String
  AccessToken : String

/-- Constructor `NewDirectusClient` (source lines 20-26): pure value assembly, no I/O. -/
def NewDirectusClient (url accessToken : String) : DirectusClient :=
  { URL := url, AccessToken := accessToken }

/-- Result of a client operation: the Go `(value, error)` pair, with a third
alternative `crash` for a runtime panic (failed type assertion). -/
inductive DResult (α : Type) where
  | ok (a : α)
  | err (msg : String)
  | crash

/-- Whether a `DResult` is a success. -/
def DResult.isOk {α : Type} : DResult α → Bool
  | .ok _ => true
  | _ => false

/-- Whether a `DResult` is a returned Go error (not a success, not a panic). -/
def DResult.isErr {α : Type} : DResult α → Bool
  | .err _ => true
  | _ => false

/-- The snapshot URL, source line 30:
`fmt.Sprintf("%s/schema/snapshot?access_token=%s", c.URL, c.AccessToken)`. -/
def snapshotURL (c : DirectusClient) : String :=
  c.URL ++ "/schema/snapshot?access_token=" ++ c.AccessToken

/-- The diff URL, source lines 61-64: the same concatenation with path
`/schema/diff`, then `url += "&force=true"` when `force` is set. -/
def diffURL (c : DirectusClient) (force : Bool) : String :=
  let url := c.URL ++ "/schema/diff?access_token=" ++ c.AccessToken
  if force then url ++ "&force=true" else url

/-- The apply URL, source line 102. -/
def applyURL (c : DirectusClient) : String :=
  c.URL ++ "/schema/apply?access_token=" ++ c.AccessToken

/-- The GET request built on source line 31: no body, no extra header. -/
def snapshotRequest (c : DirectusClient) : Request :=
  { method := "GET", url := snapshotURL c, body := none, contentType := none }

/-- The POST request built on source lines 66-75: marshalled snapshot body and
`Content-Type: application/json`. -/
def diffRequest (c : DirectusClient) (snapshot : Obj) (force : Bool) : Request :=
  { method := "POST", url := diffURL c force,
    body := some (Json.obj snapshot), contentType := some "application/json" }

/-- The POST request built on source lines 104-113. -/
def applyRequest (c : DirectusClient) (diff : Obj) : Request :=
  { method := "POST", url := applyURL c,
    body := some (Json.obj diff), contentType := some "application/json" }

/-- Operation `GetSnapshot` (source lines 29-57).  Branches, in source order: request
construction failure (33), network failure (38), non-200 status (42-45),
decode failure (48-50), envelope unwrap (52-54, crashing on a non-object
`data`), missing `data` key (56). -/
def GetSnapshot (c : DirectusClient) (env : Env) :
    DResult Obj × DirectusClient × List Request :=
  match env.newReqErr (snapshotURL c) with
  | some e => (.err ("failed to create snapshot request: " ++ e), c, [])
  | none =>
    match env.send (snapshotRequest c) with
    | .netErr e =>
        (.err ("failed to execute snapshot request: " ++ e), c, [snapshotRequest c])
    | .ok resp =>
      if resp.status ≠ 200 then
        (.err ("snapshot request failed with status " ++ toString resp.status ++
          ": " ++ resp.rawBody), c, [snapshotRequest c])
      else
        match resp.decoded with
        | .error e =>
            (.err ("failed to decode snapshot response: " ++ e), c, [snapshotRequest c])
        | .ok result =>
          match result.lookup "data" with
          | some (Json.obj fields) => (.ok fields, c, [snapshotRequest c])
          | some _ => (.crash, c, [snapshotRequest c])
          | none =>
              (.err "snapshot response does not contain \x27data\x27 field", c,
                [snapshotRequest c])

/-- Operation `GetDiff` (source lines 60-98).  Same shape as `GetSnapshot` with the
forced URL, the marshalled snapshot as body (the marshal on line 66 cannot
fail for a `Json`-valued map, see the header comment), and status 200. -/
def GetDiff (c : DirectusClient) (snapshot : Obj) (force : Bool) (env : Env) :
    DResult Obj × DirectusClient × List Request :=
  match env.newReqErr (diffURL c force) with
  | some e => (.err ("failed to create diff request: " ++ e), c, [])
  | none =>
    match env.send (diffRequest c snapshot force) with
    | .netErr e =>
        (.err ("failed to execute diff request: " ++ e), c,
          [diffRequest c snapshot force])
    | .ok resp =>
      if resp.status ≠ 200 then
        (.err ("diff request failed with status " ++ toString resp.status ++
          ": " ++ resp.rawBody), c, [diffRequest c snapshot force])
      else
        match resp.decoded with
        | .error e =>
            (.err ("failed to decode diff response: " ++ e), c,
              [diffRequest c snapshot force])
        | .ok result =>
          match result.lookup "data" with
          | some (Json.obj fields) => (.ok fields, c, [diffRequest c snapshot force])
          | some _ => (.crash, c, [diffRequest c snapshot force])
          | none =>
              (.err "diff response does not contain \x27data\x27 field", c,
                [diffRequest c snapshot force])

/-- Operation `ApplyDiff` (source lines 101-127): POST the diff, succeed exactly on
status 204 (`http.StatusNoContent`), no response payload. -/
def ApplyDiff (c : DirectusClient) (diff : Obj) (env : Env) :
    DResult Unit × DirectusClient × List Request :=
  match env.newReqErr (applyURL c) with
  | some e => (.err ("failed to create apply request: " ++ e), c, [])
  | none =>
    match env.send (applyRequest c diff) with
    | .netErr e =>
        (.err ("failed to execute apply request: " ++ e), c, [applyRequest c diff])
    | .ok resp =>
      if resp.status ≠ 204 then
        (.err ("apply request failed with status " ++ toString resp.status ++
          ": " ++ resp.rawBody), c, [applyRequest c diff])
      else
        (.ok (), c, [applyRequest c diff])

/-- Orchestrator `Migrate` (source lines 130-155): build the two clients, then snapshot →
diff → apply, aborting on the first failure and wrapping it with one line of
context.  A crash (Go panic) propagates unchanged, as Go unwinding would.
The returned list is the concatenated trace of HTTP round-trips. -/
def Migrate (baseURL baseToken targetURL targetToken : String) (force : Bool)
    (env : Env) : DResult Unit × List Request :=
  let baseClient := NewDirectusClient baseURL baseToken
  let targetClient := NewDirectusClient targetURL targetToken
  match GetSnapshot baseClient env with
  | (.err e, _, tr1) => (.err ("failed to get snapshot: " ++ e), tr1)
  | (.crash, _, tr1) => (.crash, tr1)
  | (.ok snapshot, _, tr1) =>
    match GetDiff targetClient snapshot force env with
    | (.err e, _, tr2) => (.err ("failed to get diff: " ++ e), tr1 ++ tr2)
    | (.crash, _, tr2) => (.crash, tr1 ++ tr2)
    | (.ok diff, _, tr2) =>
      match ApplyDiff targetClient diff env with
      | (.err e, _, tr3) => (.err ("failed to apply diff: " ++ e), tr1 ++ tr2 ++ tr3)
      | (.crash, _, tr3) => (.crash, tr1 ++ tr2 ++ tr3)
      | (.ok _, _, tr3) => (.ok (), tr1 ++ tr2 ++ tr3)

end Directus


namespace Directus

/-! ### Concrete values used by witnesses and counterexamples -/

/-- A concrete snapshot document. -/
def okSnapObj : Obj := [("fields", Json.arr [])]

/-- A concrete diff document. -/
def okDiffObj : Obj := [("changes", Json.arr [])]

/-- A concrete base client. -/
def wBase : DirectusClient := NewDirectusClient "b" "s"

/-- A concrete target client. -/
def wTarget : DirectusClient := NewDirectusClient "t" "d"

/-- A transport for the happy path: snapshot and diff answer 200 with a
well-formed envelope, everything else answers 204 with an empty body. -/
def happyEnv : Env where
  newReqErr := fun _ => none
  send := fun r =>
    if r.url = snapshotURL wBase then
      .ok { status := 200, rawBody := "", decoded := .ok [("data", Json.obj okSnapObj)] }
    else if r.url = diffURL wTarget false then
      .ok { status := 200, rawBody := "", decoded := .ok [("data", Json.obj okDiffObj)] }
    else
      .ok { status := 204, rawBody := "", decoded := .error "EOF" }

/-- A transport answering 500 with body "internal error" to every request. -/
def failEnv : Env where
  newReqErr := fun _ => none
  send := fun _ =>
    .ok { status := 500, rawBody := "internal error", decoded := .error "EOF" }

/-- A transport answering 200 with envelope whose `data` value is the scalar
`1` rather than an object. -/
def scalarDataEnv : Env where
  newReqErr := fun _ => none
  send := fun _ =>
    .ok { status := 200, rawBody := "", decoded := .ok [("data", Json.num 1)] }

/-- A transport answering 200 with a JSON object that has no `data` key. -/
def noDataEnv : Env where
  newReqErr := fun _ => none
  send := fun _ =>
    .ok { status := 200, rawBody := "", decoded := .ok [("meta", Json.null)] }

/-- An environment in which request construction fails, as `http.NewRequest`
does on a URL holding an ASCII control character. -/
def badURLEnv : Env where
  newReqErr := fun _ => some "net/url: invalid control character in URL"
  send := fun _ => .netErr "unreachable"

/-! ### Claims -/

/-- Claim C1, counterexample: a 200 response whose envelope carries a scalar
`data` value (here the number 1) makes GetSnapshot and GetDiff fail at
runtime — the unchecked type assertion on source lines 53 and 94 panics — so
they do not return `X` with no error for a non-mapping `X`. -/
theorem c1_counterexample :
    (GetSnapshot wBase scalarDataEnv).1 = DResult.crash ∧
    (GetDiff wTarget okSnapObj false scalarDataEnv).1 = DResult.crash :=
  ⟨rfl, rfl⟩

/-- Claim C1 (amended): for every 200 response whose body decodes as a JSON
object with a `data` key of value X, GetSnapshot and GetDiff return X with no
error when X is a mapping; when X is an array or a scalar, the unchecked type
assertion fails at runtime (panic) instead of returning a value or an error. -/
theorem c1_envelope_unwrap (cS cD : DirectusClient) (snapshot : Obj)
    (force : Bool) (env : Env) (r1 r2 : HttpResponse) (m1 m2 : Obj) (v1 v2 : Json)
    (h1 : env.newReqErr (snapshotURL cS) = none)
    (h1s : env.send (snapshotRequest cS) = .ok r1)
    (h1st : r1.status = 200)
    (h1d : r1.decoded = .ok m1)
    (h1l : m1.lookup "data" = some v1)
    (h2 : env.newReqErr (diffURL cD force) = none)
    (h2s : env.send (diffRequest cD snapshot force) = .ok r2)
    (h2st : r2.status = 200)
    (h2d : r2.decoded = .ok m2)
    (h2l : m2.lookup "data" = some v2) :
    (∀ fields, v1 = Json.obj fields → (GetSnapshot cS env).1 = .ok fields) ∧
    ((∀ fields, v1 ≠ Json.obj fields) → (GetSnapshot cS env).1 = .crash) ∧
    (∀ fields, v2 = Json.obj fields → (GetDiff cD snapshot force env).1 = .ok fields) ∧
    ((∀ fields, v2 ≠ Json.obj fields) → (GetDiff cD snapshot force env).1 = .crash) := by
  refine ⟨?_, ?_, ?_, ?_⟩
  · intro fields hv
    subst hv
    simp [GetSnapshot, h1, h1s, h1st, h1d, h1l]
  · intro hv
    cases v1 with
    | obj fields => exact absurd rfl (hv fields)
    | _ => simp [GetSnapshot, h1, h1s, h1st, h1d, h1l]
  · intro fields hv
    subst hv
    simp [GetDiff, h2, h2s, h2st, h2d, h2l]
  · intro hv
    cases v2 with
    | obj fields => exact absurd rfl (hv fields)
    | _ => simp [GetDiff, h2, h2s, h2st, h2d, h2l]

/-- Witness for C1: on the happy transport, GetSnapshot returns the snapshot
document and GetDiff the diff document unwrapped from their envelopes. -/
theorem c1_witness :
    (GetSnapshot wBase happyEnv).1 = DResult.ok okSnapObj ∧
    (GetDiff wTarget okSnapObj false happyEnv).1 = DResult.ok okDiffObj := by
  have h := c1_envelope_unwrap wBase wTarget okSnapObj false happyEnv
    { status := 200, rawBody := "", decoded := .ok [("data", Json.obj okSnapObj)] }
    { status := 200, rawBody := "", decoded := .ok [("data", Json.obj okDiffObj)] }
    [("data", Json.obj okSnapObj)] [("data", Json.obj okDiffObj)]
    (Json.obj okSnapObj) (Json.obj okDiffObj)
    rfl rfl rfl rfl rfl rfl rfl rfl rfl rfl
  exact ⟨h.1 okSnapObj rfl, h.2.2.1 okDiffObj rfl⟩

/-- Claim C3: a 200 response whose body decodes as a JSON object without a
`data` key makes GetSnapshot and GetDiff return the envelope-malformed error
(source lines 56 and 97), never a success. -/
theorem c3_envelope_malformed (c : DirectusClient) (snapshot : Obj)
    (force : Bool) (env : Env) (r1 r2 : HttpResponse) (m1 m2 : Obj)
    (h1 : env.newReqErr (snapshotURL c) = none)
    (h1s : env.send (snapshotRequest c) = .ok r1)
    (h1st : r1.status = 200)
    (h1d : r1.decoded = .ok m1)
    (h1l : m1.lookup "data" = none)
    (h2 : env.newReqErr (diffURL c force) = none)
    (h2s : env.send (diffRequest c snapshot force) = .ok r2)
    (h2st : r2.status = 200)
    (h2d : r2.decoded = .ok m2)
    (h2l : m2.lookup "data" = none) :
    (GetSnapshot c env).1 = .err "snapshot response does not contain \x27data\x27 field" ∧
    (GetDiff c snapshot force env).1 = .err "diff response does not contain \x27data\x27 field" := by
  constructor
  · simp [GetSnapshot, h1, h1s, h1st, h1d, h1l]
  · simp [GetDiff, h2, h2s, h2st, h2d, h2l]

/-- Witness for C3: a concrete 200 response with body object lacking `data`
yields the malformed-envelope errors. -/
theorem c3_witness :
    (GetSnapshot wBase noDataEnv).1 = .err "snapshot response does not contain \x27data\x27 field" ∧
    (GetDiff wTarget okSnapObj false noDataEnv).1 = .err "diff response does not contain \x27data\x27 field" := by
  have hS := (c3_envelope_malformed wBase okSnapObj false noDataEnv
    { status := 200, rawBody := "", decoded := .ok [("meta", Json.null)] }
    { status := 200, rawBody := "", decoded := .ok [("meta", Json.null)] }
    [("meta", Json.null)] [("meta", Json.null)]
    rfl rfl rfl rfl rfl rfl rfl rfl rfl rfl).1
  have hD := (c3_envelope_malformed wTarget okSnapObj false noDataEnv
    { status := 200, rawBody := "", decoded := .ok [("meta", Json.null)] }
    { status := 200, rawBody := "", decoded := .ok [("meta", Json.null)] }
    [("meta", Json.null)] [("meta", Json.null)]
    rfl rfl rfl rfl rfl rfl rfl rfl rfl rfl).2
  exact ⟨hS, hD⟩

/-- Claim C4: given responses delivered for each operation, GetSnapshot and
GetDiff succeed only when the status is exactly 200, GetDiff and GetSnapshot
fail on every other status, and ApplyDiff succeeds exactly when the status is
204 (lines 42, 83, 121: equality tests against StatusOK / StatusNoContent,
not a 2xx range). -/
theorem c4_exact_status (c : DirectusClient) (snapshot diff : Obj)
    (force : Bool) (env : Env) (r1 r2 r3 : HttpResponse)
    (h1 : env.newReqErr (snapshotURL c) = none)
    (h1s : env.send (snapshotRequest c) = .ok r1)
    (h2 : env.newReqErr (diffURL c force) = none)
    (h2s : env.send (diffRequest c snapshot force) = .ok r2)
    (h3 : env.newReqErr (applyURL c) = none)
    (h3s : env.send (applyRequest c diff) = .ok r3) :
    ((GetSnapshot c env).1.isOk = true → r1.status = 200) ∧
    (r1.status ≠ 200 → (GetSnapshot c env).1.isErr = true) ∧
    ((GetDiff c snapshot force env).1.isOk = true → r2.status = 200) ∧
    (r2.status ≠ 200 → (GetDiff c snapshot force env).1.isErr = true) ∧
    ((ApplyDiff c diff env).1 = .ok () ↔ r3.status = 204) := by
  refine ⟨?_, ?_, ?_, ?_, ?_⟩
  · intro hok
    by_contra hne
    simp [GetSnapshot, h1, h1s, hne, DResult.isOk] at hok
  · intro hne
    simp [GetSnapshot, h1, h1s, hne, DResult.isErr]
  · intro hok
    by_contra hne
    simp [GetDiff, h2, h2s, hne, DResult.isOk] at hok
  · intro hne
    simp [GetDiff, h2, h2s, hne, DResult.isErr]
  · constructor
    · intro hok
      by_contra hne
      simp [ApplyDiff, h3, h3s, hne] at hok
    · intro h204
      simp [ApplyDiff, h3, h3s, h204]

/-- Witness for C4: on the 500-answering transport every operation fails, and
on the happy transport ApplyDiff succeeds at 204. -/
theorem c4_witness :
    (GetSnapshot wBase failEnv).1.isErr = true ∧
    (ApplyDiff wTarget okDiffObj happyEnv).1 = .ok () := by
  constructor
  · exact (c4_exact_status wBase okSnapObj okDiffObj false failEnv
      { status := 500, rawBody := "internal error", decoded := .error "EOF" }
      { status := 500, rawBody := "internal error", decoded := .error "EOF" }
      { status := 500, rawBody := "internal error", decoded := .error "EOF" }
      rfl rfl rfl rfl rfl rfl).2.1 (by decide)
  · exact ((c4_exact_status wTarget okSnapObj okDiffObj false happyEnv
      { status := 204, rawBody := "", decoded := .error "EOF" }
      { status := 200, rawBody := "", decoded := .ok [("data", Json.obj okDiffObj)] }
      { status := 204, rawBody := "", decoded := .error "EOF" }
      rfl rfl rfl rfl rfl rfl).2.2.2.2).2 rfl

/-- Claim C5: a response whose status is outside the expected success code
makes the operation return an error message holding that status code and the
raw response body verbatim (the Sprintf formats on lines 44, 85, 123). -/
theorem c5_status_error_verbatim (c : DirectusClient) (snapshot diff : Obj)
    (force : Bool) (env : Env) (r1 r2 r3 : HttpResponse)
    (h1 : env.newReqErr (snapshotURL c) = none)
    (h1s : env.send (snapshotRequest c) = .ok r1)
    (h1n : r1.status ≠ 200)
    (h2 : env.newReqErr (diffURL c force) = none)
    (h2s : env.send (diffRequest c snapshot force) = .ok r2)
    (h2n : r2.status ≠ 200)
    (h3 : env.newReqErr (applyURL c) = none)
    (h3s : env.send (applyRequest c diff) = .ok r3)
    (h3n : r3.status ≠ 204) :
    (GetSnapshot c env).1 =
      .err ("snapshot request failed with status " ++ toString r1.status ++
        ": " ++ r1.rawBody) ∧
    (GetDiff c snapshot force env).1 =
      .err ("diff request failed with status " ++ toString r2.status ++
        ": " ++ r2.rawBody) ∧
    (ApplyDiff c diff env).1 =
      .err ("apply request failed with status " ++ toString r3.status ++
        ": " ++ r3.rawBody) := by
  refine ⟨?_, ?_, ?_⟩
  · simp [GetSnapshot, h1, h1s, h1n]
  · simp [GetDiff, h2, h2s, h2n]
  · simp [ApplyDiff, h3, h3s, h3n]

/-- Witness for C5: the 500 "internal error" response is reproduced, status
and body, in each operation\x27s error message. -/
theorem c5_witness :
    (GetSnapshot wBase failEnv).1 =
      .err "snapshot request failed with status 500: internal error" ∧
    (GetDiff wTarget okSnapObj false failEnv).1 =
      .err "diff request failed with status 500: internal error" ∧
    (ApplyDiff wTarget okDiffObj failEnv).1 =
      .err "apply request failed with status 500: internal error" := by
  have h1 := (c5_status_error_verbatim wBase okSnapObj okDiffObj false failEnv
    { status := 500, rawBody := "internal error", decoded := .error "EOF" }
    { status := 500, rawBody := "internal error", decoded := .error "EOF" }
    { status := 500, rawBody := "internal error", decoded := .error "EOF" }
    rfl rfl (by decide) rfl rfl (by decide) rfl rfl (by decide)).1
  have h2 := (c5_status_error_verbatim wTarget okSnapObj okDiffObj false failEnv
    { status := 500, rawBody := "internal error", decoded := .error "EOF" }
    { status := 500, rawBody := "internal error", decoded := .error "EOF" }
    { status := 500, rawBody := "internal error", decoded := .error "EOF" }
    rfl rfl (by decide) rfl rfl (by decide) rfl rfl (by decide))
  exact ⟨h1, h2.2.1, h2.2.2⟩


/-! ### Trace-shape helper lemmas (shared) -/

/-- GetSnapshot performs no round-trip or exactly the snapshot GET. -/
theorem GetSnapshot_trace_shape (c : DirectusClient) (env : Env) :
    (GetSnapshot c env).2.2 = [] ∨ (GetSnapshot c env).2.2 = [snapshotRequest c] := by
  unfold GetSnapshot
  repeat' split
  all_goals simp

/-- GetDiff performs no round-trip or exactly the diff POST. -/
theorem GetDiff_trace_shape (c : DirectusClient) (snapshot : Obj) (force : Bool)
    (env : Env) :
    (GetDiff c snapshot force env).2.2 = [] ∨
    (GetDiff c snapshot force env).2.2 = [diffRequest c snapshot force] := by
  unfold GetDiff
  repeat' split
  all_goals simp

/-- ApplyDiff performs no round-trip or exactly the apply POST. -/
theorem ApplyDiff_trace_shape (c : DirectusClient) (diff : Obj) (env : Env) :
    (ApplyDiff c diff env).2.2 = [] ∨
    (ApplyDiff c diff env).2.2 = [applyRequest c diff] := by
  unfold ApplyDiff
  repeat' split
  all_goals simp

/-- GetSnapshot never assigns to the receiver. -/
theorem GetSnapshot_client_eq (c : DirectusClient) (env : Env) :
    (GetSnapshot c env).2.1 = c := by
  unfold GetSnapshot
  repeat' split
  all_goals rfl

/-- GetDiff never assigns to the receiver. -/
theorem GetDiff_client_eq (c : DirectusClient) (snapshot : Obj) (force : Bool)
    (env : Env) : (GetDiff c snapshot force env).2.1 = c := by
  unfold GetDiff
  repeat' split
  all_goals rfl

/-- ApplyDiff never assigns to the receiver. -/
theorem ApplyDiff_client_eq (c : DirectusClient) (diff : Obj) (env : Env) :
    (ApplyDiff c diff env).2.1 = c := by
  unfold ApplyDiff
  repeat' split
  all_goals rfl

/-- When the snapshot request is constructed, GetSnapshot sends exactly it. -/
theorem GetSnapshot_trace_of_newReq (c : DirectusClient) (env : Env)
    (h : env.newReqErr (snapshotURL c) = none) :
    (GetSnapshot c env).2.2 = [snapshotRequest c] := by
  unfold GetSnapshot
  rw [h]
  dsimp only
  repeat' split
  all_goals rfl

/-- When the diff request is constructed, GetDiff sends exactly it. -/
theorem GetDiff_trace_of_newReq (c : DirectusClient) (snapshot : Obj)
    (force : Bool) (env : Env) (h : env.newReqErr (diffURL c force) = none) :
    (GetDiff c snapshot force env).2.2 = [diffRequest c snapshot force] := by
  unfold GetDiff
  rw [h]
  dsimp only
  repeat' split
  all_goals rfl

/-- When the apply request is constructed, ApplyDiff sends exactly it. -/
theorem ApplyDiff_trace_of_newReq (c : DirectusClient) (diff : Obj) (env : Env)
    (h : env.newReqErr (applyURL c) = none) :
    (ApplyDiff c diff env).2.2 = [applyRequest c diff] := by
  unfold ApplyDiff
  rw [h]
  dsimp only
  repeat' split
  all_goals rfl

/-! ### Claims C2, C6, C7, C8, C9, C10 -/

/-- Claim C2: Migrate is fail-fast — if GetSnapshot does not succeed, the
whole run performs only GetSnapshot\x27s round-trips (GetDiff and ApplyDiff are
never invoked); if GetSnapshot succeeds and GetDiff does not, the run performs
only those two operations\x27 round-trips (ApplyDiff is never invoked). -/
theorem c2_fail_fast (bU bT tU tT : String) (force : Bool) (env : Env) :
    ((GetSnapshot (NewDirectusClient bU bT) env).1.isOk = false →
      (Migrate bU bT tU tT force env).2 =
        (GetSnapshot (NewDirectusClient bU bT) env).2.2) ∧
    (∀ s, (GetSnapshot (NewDirectusClient bU bT) env).1 = .ok s →
      (GetDiff (NewDirectusClient tU tT) s force env).1.isOk = false →
      (Migrate bU bT tU tT force env).2 =
        (GetSnapshot (NewDirectusClient bU bT) env).2.2 ++
        (GetDiff (NewDirectusClient tU tT) s force env).2.2) := by
  constructor
  · intro h
    unfold Migrate
    dsimp only
    rcases hs : GetSnapshot (NewDirectusClient bU bT) env with ⟨r1, c1, t1⟩
    rw [hs] at h
    cases r1 with
    | ok a => simp [DResult.isOk] at h
    | err e => rfl
    | crash => rfl
  · intro s hS h
    unfold Migrate
    dsimp only
    rcases hs : GetSnapshot (NewDirectusClient bU bT) env with ⟨r1, c1, t1⟩
    rw [hs] at hS
    dsimp only at hS
    subst hS
    dsimp only
    rcases hd : GetDiff (NewDirectusClient tU tT) s force env with ⟨r2, c2, t2⟩
    rw [hd] at h
    cases r2 with
    | ok a => simp [DResult.isOk] at h
    | err e => rfl
    | crash => rfl

/-- Witness for C2: the all-500 transport makes GetSnapshot fail and Migrate
stops after its single round-trip. -/
theorem c2_witness :
    (Migrate "b" "s" "t" "d" false failEnv).2 =
      (GetSnapshot (NewDirectusClient "b" "s") failEnv).2.2 :=
  (c2_fail_fast "b" "s" "t" "d" false failEnv).1 rfl

/-- Claim C6: the forced diff URL is the unforced one with "&force=true"
appended once (source lines 62-64), and the forced and unforced diff requests
agree on method, body and Content-Type — only the URL differs by that one
flag. -/
theorem c6_force_flag (c : DirectusClient) (snapshot : Obj) :
    diffURL c true = diffURL c false ++ "&force=true" ∧
    diffRequest c snapshot true =
      { method := "POST", url := diffURL c false ++ "&force=true",
        body := some (Json.obj snapshot), contentType := some "application/json" } ∧
    diffRequest c snapshot false =
      { method := "POST", url := diffURL c false,
        body := some (Json.obj snapshot), contentType := some "application/json" } :=
  ⟨rfl, rfl, rfl⟩

/-- Claim C7: a failing Migrate wraps the failing step\x27s error with exactly
one context line — "failed to get snapshot", "failed to get diff" or "failed
to apply diff" by step — and keeps the underlying message verbatim, so the
status code and body text it carries stay recoverable. -/
theorem c7_error_context (bU bT tU tT : String) (force : Bool) (env : Env) :
    (∀ e, (GetSnapshot (NewDirectusClient bU bT) env).1 = .err e →
      (Migrate bU bT tU tT force env).1 = .err ("failed to get snapshot: " ++ e)) ∧
    (∀ s e, (GetSnapshot (NewDirectusClient bU bT) env).1 = .ok s →
      (GetDiff (NewDirectusClient tU tT) s force env).1 = .err e →
      (Migrate bU bT tU tT force env).1 = .err ("failed to get diff: " ++ e)) ∧
    (∀ s d e, (GetSnapshot (NewDirectusClient bU bT) env).1 = .ok s →
      (GetDiff (NewDirectusClient tU tT) s force env).1 = .ok d →
      (ApplyDiff (NewDirectusClient tU tT) d env).1 = .err e →
      (Migrate bU bT tU tT force env).1 = .err ("failed to apply diff: " ++ e)) := by
  refine ⟨?_, ?_, ?_⟩
  · intro e he
    unfold Migrate
    dsimp only
    rcases hs : GetSnapshot (NewDirectusClient bU bT) env with ⟨r1, c1, t1⟩
    rw [hs] at he
    dsimp only at he
    subst he
    rfl
  · intro s e hS he
    unfold Migrate
    dsimp only
    rcases hs : GetSnapshot (NewDirectusClient bU bT) env with ⟨r1, c1, t1⟩
    rw [hs] at hS
    dsimp only at hS
    subst hS
    dsimp only
    rcases hd : GetDiff (NewDirectusClient tU tT) s force env with ⟨r2, c2, t2⟩
    rw [hd] at he
    dsimp only at he
    subst he
    rfl
  · intro s d e hS hD he
    unfold Migrate
    dsimp only
    rcases hs : GetSnapshot (NewDirectusClient bU bT) env with ⟨r1, c1, t1⟩
    rw [hs] at hS
    dsimp only at hS
    subst hS
    dsimp only
    rcases hd : GetDiff (NewDirectusClient tU tT) s force env with ⟨r2, c2, t2⟩
    rw [hd] at hD
    dsimp only at hD
    subst hD
    dsimp only
    rcases ha : ApplyDiff (NewDirectusClient tU tT) d env with ⟨r3, c3, t3⟩
    rw [ha] at he
    dsimp only at he
    subst he
    rfl

/-- Witness for C7: the all-500 transport yields the snapshot failure wrapped
with its one context line, body text intact. -/
theorem c7_witness :
    (Migrate "b" "s" "t" "d" false failEnv).1 =
      .err ("failed to get snapshot: " ++
        "snapshot request failed with status 500: internal error") :=
  (c7_error_context "b" "s" "t" "d" false failEnv).1
    "snapshot request failed with status 500: internal error" rfl

/-- Claim C8: Migrate forwards payloads opaquely — when snapshot and diff
succeed, the run\x27s trace is exactly the three operations\x27 requests in order,
every diff request carries the snapshot document unchanged as its body, and
every apply request carries the diff document unchanged. -/
theorem c8_opaque_forwarding (bU bT tU tT : String) (force : Bool) (env : Env)
    (s d : Obj)
    (hS : (GetSnapshot (NewDirectusClient bU bT) env).1 = .ok s)
    (hD : (GetDiff (NewDirectusClient tU tT) s force env).1 = .ok d) :
    (Migrate bU bT tU tT force env).2 =
      (GetSnapshot (NewDirectusClient bU bT) env).2.2 ++
      (GetDiff (NewDirectusClient tU tT) s force env).2.2 ++
      (ApplyDiff (NewDirectusClient tU tT) d env).2.2 ∧
    (∀ r ∈ (GetDiff (NewDirectusClient tU tT) s force env).2.2,
      r.body = some (Json.obj s) ∧ r.method = "POST" ∧
      r.url = diffURL (NewDirectusClient tU tT) force) ∧
    (∀ r ∈ (ApplyDiff (NewDirectusClient tU tT) d env).2.2,
      r.body = some (Json.obj d) ∧ r.method = "POST" ∧
      r.url = applyURL (NewDirectusClient tU tT)) := by
  refine ⟨?_, ?_, ?_⟩
  · unfold Migrate
    dsimp only
    rcases hs : GetSnapshot (NewDirectusClient bU bT) env with ⟨r1, c1, t1⟩
    rw [hs] at hS
    dsimp only at hS
    subst hS
    dsimp only
    rcases hd : GetDiff (NewDirectusClient tU tT) s force env with ⟨r2, c2, t2⟩
    rw [hd] at hD
    dsimp only at hD
    subst hD
    dsimp only
    rcases ha : ApplyDiff (NewDirectusClient tU tT) d env with ⟨r3, c3, t3⟩
    cases r3 with
    | ok a => rfl
    | err e => rfl
    | crash => rfl
  · intro r hr
    rcases GetDiff_trace_shape (NewDirectusClient tU tT) s force env with h | h
    · rw [h] at hr
      simp at hr
    · rw [h] at hr
      simp at hr
      subst hr
      exact ⟨rfl, rfl, rfl⟩
  · intro r hr
    rcases ApplyDiff_trace_shape (NewDirectusClient tU tT) d env with h | h
    · rw [h] at hr
      simp at hr
    · rw [h] at hr
      simp at hr
      subst hr
      exact ⟨rfl, rfl, rfl⟩

/-- Witness for C8: on the happy transport the full pipeline runs and its
trace is the three requests in order. -/
theorem c8_witness :
    (Migrate "b" "s" "t" "d" false happyEnv).2 =
      (GetSnapshot (NewDirectusClient "b" "s") happyEnv).2.2 ++
      (GetDiff (NewDirectusClient "t" "d") okSnapObj false happyEnv).2.2 ++
      (ApplyDiff (NewDirectusClient "t" "d") okDiffObj happyEnv).2.2 :=
  (c8_opaque_forwarding "b" "s" "t" "d" false happyEnv okSnapObj okDiffObj
    rfl rfl).1

/-- Claim C9, counterexample: when request construction fails — as
`http.NewRequest` does on a URL with an ASCII control character, a transport
failure kind the design itself lists — GetSnapshot performs zero network
round-trips, not exactly one. -/
theorem c9_counterexample :
    (GetSnapshot (NewDirectusClient "http://h\n" "s") badURLEnv).2.2 = [] ∧
    (GetSnapshot (NewDirectusClient "http://h\n" "s") badURLEnv).2.2.length = 0 :=
  ⟨rfl, rfl⟩

/-- Claim C9 (amended): each operation performs at most one network
round-trip — exactly one whenever its request is constructed, zero when
request construction fails — and never mutates the client: the URL and
AccessToken fields are returned unchanged by every operation. -/
theorem c9_frame (c : DirectusClient) (snapshot diff : Obj) (force : Bool)
    (env : Env) :
    ((GetSnapshot c env).2.1 = c ∧ (GetSnapshot c env).2.2.length ≤ 1 ∧
      (env.newReqErr (snapshotURL c) = none →
        (GetSnapshot c env).2.2 = [snapshotRequest c])) ∧
    ((GetDiff c snapshot force env).2.1 = c ∧
      (GetDiff c snapshot force env).2.2.length ≤ 1 ∧
      (env.newReqErr (diffURL c force) = none →
        (GetDiff c snapshot force env).2.2 = [diffRequest c snapshot force])) ∧
    ((ApplyDiff c diff env).2.1 = c ∧
      (ApplyDiff c diff env).2.2.length ≤ 1 ∧
      (env.newReqErr (applyURL c) = none →
        (ApplyDiff c diff env).2.2 = [applyRequest c diff])) := by
  refine ⟨⟨GetSnapshot_client_eq c env, ?_, GetSnapshot_trace_of_newReq c env⟩,
    ⟨GetDiff_client_eq c snapshot force env, ?_,
      GetDiff_trace_of_newReq c snapshot force env⟩,
    ⟨ApplyDiff_client_eq c diff env, ?_, ApplyDiff_trace_of_newReq c diff env⟩⟩
  · rcases GetSnapshot_trace_shape c env with h | h <;> simp [h]
  · rcases GetDiff_trace_shape c snapshot force env with h | h <;> simp [h]
  · rcases ApplyDiff_trace_shape c diff env with h | h <;> simp [h]

/-- Witness for C9: on a transport that constructs every request, GetSnapshot
performs exactly its one GET round-trip and the client comes back unchanged. -/
theorem c9_witness :
    (GetSnapshot wBase failEnv).2.2 = [snapshotRequest wBase] ∧
    (GetSnapshot wBase failEnv).2.1 = wBase :=
  ⟨(c9_frame wBase okSnapObj okDiffObj false failEnv).1.2.2 rfl,
   (c9_frame wBase okSnapObj okDiffObj false failEnv).1.1⟩

/-- Claim C10: every request URL is plain string concatenation of address,
path, "?access_token=" and token (plus "&force=true" for a forced diff), with
no encoding or validation: empty strings are accepted, and URL metacharacters
in the token are embedded verbatim — a token holding an ampersand or a hash
changes the effective request target (an unforced diff with token
"t&force=true" hits exactly the forced URL of token "t"). -/
theorem c10_url_building :
    (∀ c : DirectusClient,
      snapshotURL c = c.URL ++ "/schema/snapshot?access_token=" ++ c.AccessToken ∧
      diffURL c false = c.URL ++ "/schema/diff?access_token=" ++ c.AccessToken ∧
      diffURL c true =
        c.URL ++ "/schema/diff?access_token=" ++ c.AccessToken ++ "&force=true" ∧
      applyURL c = c.URL ++ "/schema/apply?access_token=" ++ c.AccessToken) ∧
    snapshotURL (NewDirectusClient "" "") = "/schema/snapshot?access_token=" ∧
    diffURL (NewDirectusClient "http://h" "t&force=true") false =
      diffURL (NewDirectusClient "http://h" "t") true ∧
    snapshotURL (NewDirectusClient "http://h" "t#x") =
      "http://h/schema/snapshot?access_token=t#x" ∧
    snapshotURL (NewDirectusClient "http://h" "a b") =
      "http://h/schema/snapshot?access_token=a b" := by
  refine ⟨fun c => ⟨rfl, rfl, rfl, rfl⟩, ?_, ?_, ?_, ?_⟩
  all_goals decide

end Directus
